import Mathlib

/-!
Shallow embedding of the homebridge-virtual-button plugin.

Source files embedded here:
  - src/platform.ts: the ExampleHomebridgePlatform class (accessory cache,
    live controller instances, discoverDevices reconciliation, the embedded
    HTTP endpoint with its CORS preflight handling and handleRequest).
  - src/platformAccessory.ts: the PlatformSwitchAccessory switch controller
    (getName, getOn, setOn, toggleState, setStateOn).

JavaScript string builtins used by the source (String.prototype.includes,
String.prototype.split, String.prototype.replace with a string pattern, and
the global decodeURIComponent) are modelled on character lists, following the
ECMAScript semantics the source relies on.  Asynchronous controller
operations are modelled as sequences of micro operations (log, assignment,
sleep, characteristic update) executed sequentially, which captures the
"no interleaving" executions the specification talks about; sleeps only mark
the passage of time and never change state.
-/

namespace VirtualButton

/-! ## JavaScript string builtins (models of external ECMAScript functions) -/

/-- Model of the ECMAScript String.prototype.includes builtin restricted to a
nonempty search string: true when the pattern occurs as a contiguous
substring. -/
def containsSub (pat : List Char) : List Char → Bool
  | [] => pat.isEmpty
  | c :: cs => pat.isPrefixOf (c :: cs) || containsSub pat (cs)

/-- Model of the ECMAScript String.prototype.split builtin for a one-character
separator, the only form the source uses (url.split with separator "?"). -/
def splitChar (sep : Char) : List Char → List (List Char)
  | [] => [[]]
  | c :: cs =>
    let r := splitChar sep cs
    if c == sep then [] :: r
    else
      match r with
      | h :: t => (c :: h) :: t
      | [] => [[c]]

/-- Model of the ECMAScript String.prototype.replace builtin with a nonempty
string pattern: only the first occurrence of the pattern is replaced; when
the pattern does not occur the input is returned unchanged. -/
def replaceFirstList (pat repl : List Char) : List Char → List Char
  | [] => []
  | c :: cs =>
    if pat.isPrefixOf (c :: cs) then repl ++ List.drop pat.length (c :: cs)
    else c :: replaceFirstList pat repl cs

/-- Value of a hexadecimal digit character, following the ECMAScript
decodeURIComponent grammar (both letter cases accepted); stated on code
points: digits are 48 to 57, lowercase letters 97 to 102, uppercase 65 to
70. -/
def hexDigitVal (c : Char) : Option Nat :=
  let u := c.toNat
  if 48 ≤ u ∧ u ≤ 57 then some (u - 48)
  else if 97 ≤ u ∧ u ≤ 102 then some (u - 87)
  else if 65 ≤ u ∧ u ≤ 70 then some (u - 55)
  else none

/-- UTF-8 encoding of one character, as a list of byte values. -/
def utf8EncodeChar (c : Char) : List Nat :=
  let n := c.toNat
  if n < 128 then [n]
  else if n < 2048 then [192 + n / 64, 128 + n % 64]
  else if n < 65536 then [224 + n / 4096, 128 + (n / 64) % 64, 128 + n % 64]
  else [240 + n / 262144, 128 + (n / 4096) % 64, 128 + (n / 64) % 64, 128 + n % 64]

/-- Whether a byte value is a UTF-8 continuation byte. -/
def isCont (b : Nat) : Bool := 128 ≤ b && b < 192

/-- Strict UTF-8 decoding of a list of byte values: rejects truncated
sequences, overlong encodings, surrogates and out-of-range code points, the
conditions under which the ECMAScript decodeURIComponent builtin throws a
URIError. -/
def utf8Decode : List Nat → Option (List Char)
  | [] => some []
  | b :: rest =>
    if b < 128 then
      match utf8Decode rest with
      | some cs => some (Char.ofNat b :: cs)
      | none => none
    else if 194 ≤ b && b < 224 then
      match rest with
      | b2 :: rest2 =>
        if isCont b2 then
          match utf8Decode rest2 with
          | some cs => some (Char.ofNat ((b - 192) * 64 + (b2 - 128)) :: cs)
          | none => none
        else none
      | [] => none
    else if 224 ≤ b && b < 240 then
      match rest with
      | b2 :: b3 :: rest3 =>
        if isCont b2 && isCont b3 then
          let n := (b - 224) * 4096 + (b2 - 128) * 64 + (b3 - 128)
          if 2048 ≤ n && !(55296 ≤ n && n < 57344) then
            match utf8Decode rest3 with
            | some cs => some (Char.ofNat n :: cs)
            | none => none
          else none
        else none
      | _ => none
    else if 240 ≤ b && b < 245 then
      match rest with
      | b2 :: b3 :: b4 :: rest4 =>
        if isCont b2 && isCont b3 && isCont b4 then
          let n := (b - 240) * 262144 + (b2 - 128) * 4096 + (b3 - 128) * 64 + (b4 - 128)
          if 65536 ≤ n && n < 1114112 then
            match utf8Decode rest4 with
            | some cs => some (Char.ofNat n :: cs)
            | none => none
          else none
        else none
      | _ => none
    else none

/-- Percent-decoding to raw byte values: a percent sign followed by two hex
digits yields one byte, any other character contributes its UTF-8 bytes; a
percent sign not followed by two hex digits is a decoding error. -/
def percentDecodeBytes : List Char → Option (List Nat)
  | [] => some []
  | c :: rest =>
    if c == '%' then
      match rest with
      | c1 :: c2 :: rest2 =>
        match hexDigitVal c1, hexDigitVal c2 with
        | some h1, some h2 =>
          match percentDecodeBytes rest2 with
          | some bs => some ((16 * h1 + h2) :: bs)
          | none => none
        | _, _ => none
      | _ => none
    else
      match percentDecodeBytes rest with
      | some bs => some (utf8EncodeChar c ++ bs)
      | none => none

/-- Model of the ECMAScript decodeURIComponent builtin: percent-decode to
bytes, then decode the bytes as UTF-8.  The result is none exactly when the
builtin throws a URIError (malformed escape sequence or invalid UTF-8). -/
def decodeURIComponent (s : String) : Option String :=
  match percentDecodeBytes s.data with
  | none => none
  | some bs =>
    match utf8Decode bs with
    | none => none
    | some cs => some (String.mk cs)

/-! ## Data model -/

/-- One entry of config.switches: a user-declared virtual switch. -/
structure SwitchConfig where
  name : String
deriving DecidableEq

/-- Modelled from the spec: hap.uuid.generate, the external deterministic
derivation of an identity key from the switch name (same input gives the same
output on every run). -/
def uuidGenerate (name : String) : String :=
  "uuid-" ++ name

/-- A host-persisted platform accessory handle: display name, UUID, and the
context payload holding a copy of the originating SwitchConfig
(accessory.context.switch). -/
structure AccessoryRecord where
  displayName : String
  UUID : String
  contextSwitch : SwitchConfig
deriving DecidableEq

/-- A PlatformSwitchAccessory controller: the accessory handle it wraps and
the mutable boolean state this.states.On, which the constructor initialises
to false. -/
structure PlatformSwitchAccessory where
  accessory : AccessoryRecord
  statesOn : Bool
deriving DecidableEq

/-- getName of PlatformSwitchAccessory: returns
this.accessory.context.switch.name. -/
def getName (i : PlatformSwitchAccessory) : String :=
  i.accessory.contextSwitch.name

/-- getOn of PlatformSwitchAccessory: returns this.states.On immediately. -/
def getOn (statesOn : Bool) : Bool :=
  statesOn

/-! ## Controller operations as micro-operation sequences

Each async controller method of src/platformAccessory.ts is embedded as the
list of primitive effects it performs, in program order.  Executing the list
sequentially (no interleaving) from a given value of this.states.On yields
the final state together with the trace of observable events. -/

/-- Observable events: log calls, sleeps, and updateCharacteristic calls
(tagged with the controller name, carrying the value of this.states.On read
at the moment of the call). -/
inductive Event where
  | info (msg : String) (arg : String)
  | infoBool (msg : String) (value : Bool)
  | error (msg : String) (arg : String)
  | sleep (ms : Nat)
  | updateChar (name : String) (value : Bool)
deriving DecidableEq

/-- The message string of the log.info call inside setOn, built from the
template literal in the source. -/
def setOnLogMsg (name : String) : String :=
  "Set Characteristic On -> for \"" ++ name ++ "\""

/-- Primitive effects a controller method performs on this.states.On. -/
inductive MicroOp where
  | logInfoSet (name : String) (value : Bool)
  | assignOn (value : Bool)
  | sleepOp (ms : Nat)
  | updateCharFromState (name : String)
deriving DecidableEq

/-- Effect of one micro operation on the state, with the events it emits.
Sleeps and updateCharacteristic calls never change this.states.On. -/
def applyOp (st : Bool) : MicroOp → Bool × List Event
  | .logInfoSet name value => (st, [Event.infoBool (setOnLogMsg name) value])
  | .assignOn value => (value, [])
  | .sleepOp ms => (st, [Event.sleep ms])
  | .updateCharFromState name => (st, [Event.updateChar name st])

/-- Sequential execution of a list of micro operations from a state. -/
def runOps (st : Bool) : List MicroOp → Bool × List Event
  | [] => (st, [])
  | op :: rest =>
    let r := applyOp st op
    let r2 := runOps r.1 rest
    (r2.1, r.2 ++ r2.2)

/-- setOn(value): log.info with the switch name and the target value, then
assign this.states.On := value, then await sleep(300). -/
def setOnOps (name : String) (value : Bool) : List MicroOp :=
  [.logInfoSet name value, .assignOn value, .sleepOp 300]

/-- toggleState(): read isOn := this.getOn(), await this.setOn(not isOn),
then updateCharacteristic with this.states.On.  In a non-interleaved
execution the initial read sees the entry state, which is passed here as the
argument. -/
def toggleStateOps (name : String) (entryState : Bool) : List MicroOp :=
  setOnOps name (!(getOn entryState)) ++ [.updateCharFromState name]

/-- setStateOn(): await setOn(true), updateCharacteristic, await
sleep(1500), await setOn(false), updateCharacteristic. -/
def setStateOnOps (name : String) : List MicroOp :=
  setOnOps name true ++ [.updateCharFromState name] ++ [.sleepOp 1500]
    ++ setOnOps name false ++ [.updateCharFromState name]

/-! ## Platform state -/

/-- State of the ExampleHomebridgePlatform object: the accessory cache
(this.accessories, filled by configureAccessory), the live controller set
(this.instances), the accessories passed to registerPlatformAccessories, and
the chronological trace of emitted events. -/
structure PlatformState where
  accessories : List AccessoryRecord
  instances : List PlatformSwitchAccessory
  registered : List AccessoryRecord
  events : List Event
deriving DecidableEq

/-- Platform state at process start: all lists empty. -/
def initialState : PlatformState :=
  { accessories := [], instances := [], registered := [], events := [] }

/-- The accessory created by new this.api.platformAccessory(button.name,
uuid) with accessory.context.switch = button. -/
def newAccessoryFor (button : SwitchConfig) : AccessoryRecord :=
  { displayName := button.name
    UUID := uuidGenerate button.name
    contextSwitch := button }

/-- new PlatformSwitchAccessory(this, accessory): wraps the accessory with
states.On initialised to false. -/
def mkInstance (accessory : AccessoryRecord) : PlatformSwitchAccessory :=
  { accessory := accessory, statesOn := false }

/-- One iteration of the discoverDevices loop for one configured button:
look the UUID up in the restored cache; reuse the cached accessory when
found, otherwise create, contextualise and register a new one; either way
construct a controller and append it to this.instances. -/
def discoverStep (st : PlatformState) (button : SwitchConfig) : PlatformState :=
  match st.accessories.find? (fun a => a.UUID == uuidGenerate button.name) with
  | some existingAccessory =>
    { st with
      instances := st.instances ++ [mkInstance existingAccessory]
      events := st.events
        ++ [Event.info "Restoring existing accessory from cache:" existingAccessory.displayName] }
  | none =>
    let accessory := newAccessoryFor button
    { st with
      instances := st.instances ++ [mkInstance accessory]
      registered := st.registered ++ [accessory]
      events := st.events ++ [Event.info "Adding new accessory:" button.name] }

/-- discoverDevices(): a no-op when this.config.switches is absent,
otherwise the loop over the configured switches in declaration order. -/
def discoverDevices (config : Option (List SwitchConfig)) (st : PlatformState) : PlatformState :=
  match config with
  | none => st
  | some switches => List.foldl discoverStep st switches

/-- The controller that one discoverDevices iteration appends for a button,
as a function of the accessory cache (which discoverDevices never mutates). -/
def discoveredInstance (cache : List AccessoryRecord) (button : SwitchConfig) :
    PlatformSwitchAccessory :=
  match cache.find? (fun a => a.UUID == uuidGenerate button.name) with
  | some existingAccessory => mkInstance existingAccessory
  | none => mkInstance (newAccessoryFor button)

/-! ## The HTTP endpoint -/

/-- An incoming HTTP request: method and url as the http module presents
them. -/
structure HttpRequest where
  method : String
  url : String
deriving DecidableEq

/-- The response written back: status code, headers set on the response, and
body (always empty in this source). -/
structure HttpResponse where
  status : Nat
  headers : List (String × String)
  body : String
deriving DecidableEq

/-- The four CORS headers createHttpService sets on every response. -/
def corsHeaders : List (String × String) :=
  [("Access-Control-Allow-Origin", "*"),
   ("Access-Control-Allow-Methods", "GET, POST, OPTIONS, PUT, PATCH, DELETE"),
   ("Access-Control-Allow-Headers", "X-Requested-With,content-type"),
   ("Access-Control-Allow-Credentials", "true")]

/-- The raw name parameter handleRequest computes: the part of the url after
the first question mark with the first occurrence of the substring "name="
removed, or the empty string when the url has no query part.  (An empty
query part is falsy in JavaScript and also yields the empty string, which
the replace leaves unchanged.) -/
def extractNameRaw (url : String) : String :=
  match (splitChar '?' url.data)[1]? with
  | some q => String.mk (replaceFirstList "name=".data [] q)
  | none => ""

/-- toggleState() invoked through this.instances.find: mutate the first
controller in live-set order whose getName() equals the looked-up name,
returning the updated list and the events of the toggle; none when no
controller matches. -/
def toggleFirst (name : String) :
    List PlatformSwitchAccessory → Option (List PlatformSwitchAccessory × List Event)
  | [] => none
  | i :: rest =>
    if getName i == name then
      let r := runOps i.statesOn (toggleStateOps (getName i) i.statesOn)
      some ({ i with statesOn := r.1 } :: rest, r.2)
    else
      match toggleFirst name rest with
      | some (rest2, evs) => some (i :: rest2, evs)
      | none => none

/-- handleRequest: when the url contains "/toggle", extract and
percent-decode the name, toggle the first matching controller or log an
error, then answer 204 with no body; any other url is answered 204
directly.  The result is none when decodeURIComponent throws a URIError:
the async handler then rejects before writing any response, so no response
is sent and the platform state is left unchanged. -/
def handleRequest (st : PlatformState) (req : HttpRequest) :
    Option (PlatformState × HttpResponse) :=
  if containsSub "/toggle".data req.url.data then
    match decodeURIComponent (extractNameRaw req.url) with
    | none => none
    | some name =>
      match toggleFirst name st.instances with
      | some (instances2, evs) =>
        some ({ st with instances := instances2, events := st.events ++ evs },
              { status := 204, headers := corsHeaders, body := "" })
      | none =>
        some ({ st with
                events := st.events ++ [Event.error "Could not find instance for name:" name] },
              { status := 204, headers := corsHeaders, body := "" })
  else
    some (st, { status := 204, headers := corsHeaders, body := "" })

/-- The request listener of createHttpService: set the CORS headers, answer
an OPTIONS preflight immediately with 200 and no body, and dispatch every
other request to handleRequest. -/
def serverHandler (st : PlatformState) (req : HttpRequest) :
    Option (PlatformState × HttpResponse) :=
  if req.method == "OPTIONS" then
    some (st, { status := 200, headers := corsHeaders, body := "" })
  else
    handleRequest st req

/-! ## Platform lifecycle -/

/-- External stimuli the platform reacts to: a cached accessory handed to
configureAccessory during restoration, the didFinishLaunching signal (which
runs discoverDevices with this.config.switches), and an incoming HTTP
request. -/
inductive PlatformEvent where
  | configure (accessory : AccessoryRecord)
  | didFinishLaunching (config : Option (List SwitchConfig))
  | request (req : HttpRequest)
deriving DecidableEq

/-- Whether a lifecycle event is the didFinishLaunching signal. -/
def isDidFinishLaunching : PlatformEvent → Bool
  | .didFinishLaunching _ => true
  | _ => false

/-- One lifecycle step of the platform. -/
def platformStep (st : PlatformState) : PlatformEvent → PlatformState
  | .configure accessory =>
    { st with
      accessories := st.accessories ++ [accessory]
      events := st.events ++ [Event.info "Loading accessory from cache:" accessory.displayName] }
  | .didFinishLaunching config => discoverDevices config st
  | .request req =>
    match serverHandler st req with
    | some (st2, _) => st2
    | none => st

/-- The platform state after a sequence of lifecycle events from process
start. -/
def runPlatform (es : List PlatformEvent) : PlatformState :=
  List.foldl platformStep initialState es

/-! ## Concrete fixtures used by witnesses and counterexamples -/

/-- A cached accessory record for a switch named Kitchen. -/
def kitchenAccessory : AccessoryRecord :=
  { displayName := "Kitchen", UUID := uuidGenerate "Kitchen", contextSwitch := ⟨"Kitchen"⟩ }

/-- A cached accessory record for a switch named Garage. -/
def garageAccessory : AccessoryRecord :=
  { displayName := "Garage", UUID := uuidGenerate "Garage", contextSwitch := ⟨"Garage"⟩ }

/-- A platform state whose live set holds the two freshly constructed
controllers Kitchen and Garage, both off. -/
def stKG : PlatformState :=
  { accessories := [], instances := [mkInstance kitchenAccessory, mkInstance garageAccessory],
    registered := [], events := [] }

end VirtualButton

namespace VirtualButton

/-! ## Controller lemmas -/

/-- A single non-interleaved toggleState run negates the entry state. -/
theorem runOps_toggleStateOps (name : String) (s : Bool) :
    (runOps s (toggleStateOps name s)).1 = !s := by
  cases s <;> rfl

/-- C3: For every controller, calling toggleState once with no interleaved
operations and awaiting its completion negates the stored On state: from
state false the state afterwards is true, and a second such call returns it
to false (stated for an arbitrary entry state s, whose two instances are the
two sentences of the claim). -/
theorem toggleState_negates (name : String) (s : Bool) :
    getOn (runOps s (toggleStateOps name s)).1 = !s ∧
    getOn (runOps (!s) (toggleStateOps name (!s))).1 = s := by
  cases s <;> exact ⟨rfl, rfl⟩

/-- C4: setOn(v) assigns the internal On state to v before its settle delay
begins (the assignment is the micro operation at index 1, the 300ms sleep
the one at index 2), so any getOn performed after the assignment, including
while the delay is still pending, returns v; sleeping never changes state
(the delay only affects completion timing); and the run emits an
informational log entry whose message contains the switch name and which
carries the target value. -/
theorem setOn_contract (name : String) (v s : Bool) :
    (setOnOps name v)[1]? = some (MicroOp.assignOn v) ∧
    (setOnOps name v)[2]? = some (MicroOp.sleepOp 300) ∧
    (∀ i : Nat, getOn (runOps s ((setOnOps name v).take (2 + i))).1 = v) ∧
    getOn (runOps s (setOnOps name v)).1 = v ∧
    (∀ (s2 : Bool) (ms : Nat), applyOp s2 (MicroOp.sleepOp ms) = (s2, [Event.sleep ms])) ∧
    ∃ msg, Event.infoBool msg v ∈ (runOps s (setOnOps name v)).2 ∧
      ∃ pre post, msg = pre ++ name ++ post := by
  refine ⟨rfl, rfl, ?_, rfl, fun s2 ms => rfl, setOnLogMsg name, ?_, ?_⟩
  · intro i
    cases i with
    | zero => rfl
    | succ n =>
      rw [List.take_of_length_le (by simp [setOnOps]; omega)]
      rfl
  · simp [setOnOps, runOps, applyOp]
  · exact ⟨"Set Characteristic On -> for \"", "\"", rfl⟩

/-- C5: setStateOn on a controller with state false performs the pulse
sequence set-on, propagate, hold, set-off, propagate: the internal state
sampled immediately after the on phase commits (after the first two micro
operations) is true, it is still true once the on phase has fully
propagated (after four micro operations), and after the whole operation
completes the internal state is false. -/
theorem setStateOn_pulse (name : String) :
    getOn (runOps false ((setStateOnOps name).take 2)).1 = true ∧
    getOn (runOps false ((setStateOnOps name).take 4)).1 = true ∧
    getOn (runOps false (setStateOnOps name)).1 = false :=
  ⟨rfl, rfl, rfl⟩

end VirtualButton

namespace VirtualButton

/-! ## Endpoint lemmas -/

/-- Splitting on a character that does not occur returns the whole input as
the only part. -/
theorem splitChar_no_sep (sep : Char) :
    ∀ l : List Char, sep ∉ l → splitChar sep l = [l] := by
  intro l
  induction l with
  | nil => intro _; rfl
  | cons c cs ih =>
    intro h
    have hc : (c == sep) = false := by
      apply beq_eq_false_iff_ne.mpr
      intro e
      exact h (e ▸ List.mem_cons_self c cs)
    have h1 : sep ∉ cs := fun hs => h (List.mem_cons_of_mem c hs)
    simp [splitChar, hc, ih h1]

/-- Toggling through the live set does not change which controllers are in
it: the list of names is preserved. -/
theorem toggleFirst_map_getName (name : String) :
    ∀ (l l2 : List PlatformSwitchAccessory) (evs : List Event),
      toggleFirst name l = some (l2, evs) → l2.map getName = l.map getName := by
  intro l
  induction l with
  | nil => intro l2 evs h; simp [toggleFirst] at h
  | cons x xs ih =>
    intro l2 evs h
    rw [toggleFirst] at h
    split at h
    · obtain ⟨h1, h2⟩ := Prod.mk.injEq .. ▸ Option.some.inj h
      subst h1
      simp [getName]
    · split at h
      · next rest2 evs2 heq =>
        obtain ⟨h1, h2⟩ := Prod.mk.injEq .. ▸ Option.some.inj h
        subst h1
        simp [ih rest2 evs2 heq]
      · exact absurd h (by simp)

/-- When no controller in the list has the looked-up name, the find fails
and nothing is toggled. -/
theorem toggleFirst_eq_none (name : String) :
    ∀ l : List PlatformSwitchAccessory,
      (∀ i ∈ l, getName i ≠ name) → toggleFirst name l = none := by
  intro l
  induction l with
  | nil => intro _; rfl
  | cons x xs ih =>
    intro h
    have hx : (getName x == name) = false :=
      beq_eq_false_iff_ne.mpr (h x (List.mem_cons_self x xs))
    have hxs := ih (fun i hi => h i (List.mem_cons_of_mem x hi))
    simp [toggleFirst, hx, hxs]

/-- When index k holds the first controller whose name matches, the find
toggles exactly that entry: the updated list is the original with entry k
replaced by the same controller with its state negated. -/
theorem toggleFirst_at (name : String) :
    ∀ (l : List PlatformSwitchAccessory) (k : Nat) (i : PlatformSwitchAccessory),
      l[k]? = some i → getName i = name →
      (∀ j, j < k → ∀ ij, l[j]? = some ij → getName ij ≠ name) →
      ∃ evs, toggleFirst name l = some (l.set k { i with statesOn := !i.statesOn }, evs) := by
  intro l
  induction l with
  | nil => intro k i h _ _; simp at h
  | cons x xs ih =>
    intro k i hk hname hfirst
    cases k with
    | zero =>
      have hx : x = i := by simpa using hk
      subst hx
      have hb : (getName x == name) = true := by simp [hname]
      refine ⟨(runOps x.statesOn (toggleStateOps (getName x) x.statesOn)).2, ?_⟩
      rw [toggleFirst, if_pos hb]
      simp only [runOps_toggleStateOps, List.set_cons_zero]
    | succ k2 =>
      have hx : (getName x == name) = false := by
        apply beq_eq_false_iff_ne.mpr
        exact hfirst 0 (Nat.succ_pos k2) x (by simp)
      obtain ⟨evs, he⟩ := ih k2 i (by simpa using hk) hname
        (fun j hj ij hij => hfirst (j + 1) (by omega) ij (by simpa using hij))
      refine ⟨evs, ?_⟩
      rw [toggleFirst, if_neg (by simp [hx]), he]
      rfl

end VirtualButton

namespace VirtualButton

/-! ## Endpoint theorems -/

/-- C8: Every OPTIONS request, to any path, is answered with status 200, an
empty body, and the four CORS headers set, without invoking the
toggle-routing logic (the platform state is returned unchanged even when
the URL contains /toggle). -/
theorem options_preflight (st : PlatformState) (url : String) :
    serverHandler st { method := "OPTIONS", url := url }
      = some (st, { status := 200, headers := corsHeaders, body := "" }) ∧
    ("Access-Control-Allow-Origin", "*") ∈ corsHeaders ∧
    ("Access-Control-Allow-Methods", "GET, POST, OPTIONS, PUT, PATCH, DELETE") ∈ corsHeaders ∧
    ("Access-Control-Allow-Headers", "X-Requested-With,content-type") ∈ corsHeaders ∧
    ("Access-Control-Allow-Credentials", "true") ∈ corsHeaders := by
  refine ⟨rfl, ?_, ?_, ?_, ?_⟩ <;> simp [corsHeaders]

/-- C6: A toggle request whose decoded name matches no controller in the
live set causes no change to any controller, is logged as an error with the
requested name included, and still receives a 204 response with no body. -/
theorem toggle_unknown_name (st : PlatformState) (req : HttpRequest) (name : String)
    (hm : req.method ≠ "OPTIONS")
    (ht : containsSub "/toggle".data req.url.data = true)
    (hd : decodeURIComponent (extractNameRaw req.url) = some name)
    (hnone : ∀ i ∈ st.instances, getName i ≠ name) :
    serverHandler st req =
      some ({ st with
              events := st.events ++ [Event.error "Could not find instance for name:" name] },
            { status := 204, headers := corsHeaders, body := "" }) := by
  have hm2 : (req.method == "OPTIONS") = false := beq_eq_false_iff_ne.mpr hm
  have htf := toggleFirst_eq_none name st.instances hnone
  simp [serverHandler, hm2, handleRequest, ht, hd, htf]

/-- Witness for C6: with controllers Kitchen and Garage, a GET request to
/toggle?name=Unknown decodes the name Unknown, matches nothing, logs the
error and returns 204. -/
theorem toggle_unknown_name_witness :
    decodeURIComponent (extractNameRaw "/toggle?name=Unknown") = some "Unknown" ∧
    serverHandler stKG { method := "GET", url := "/toggle?name=Unknown" } =
      some ({ stKG with
              events := stKG.events ++ [Event.error "Could not find instance for name:" "Unknown"] },
            { status := 204, headers := corsHeaders, body := "" }) :=
  ⟨by decide,
   toggle_unknown_name stKG { method := "GET", url := "/toggle?name=Unknown" } "Unknown"
     (by decide) (by decide) (by decide) (by decide)⟩

/-- C10: For a request whose URL contains /toggle but carries no question
mark, the raw name is the empty string, which percent-decodes to the empty
string; when no controller is named by the empty string, no controller
state changes, an error naming the empty string is logged, and the response
is still 204 with no body. -/
theorem toggle_no_query (st : PlatformState) (req : HttpRequest)
    (hm : req.method ≠ "OPTIONS")
    (ht : containsSub "/toggle".data req.url.data = true)
    (hq : '?' ∉ req.url.data)
    (hnone : ∀ i ∈ st.instances, getName i ≠ "") :
    extractNameRaw req.url = "" ∧
    decodeURIComponent "" = some "" ∧
    serverHandler st req =
      some ({ st with
              events := st.events ++ [Event.error "Could not find instance for name:" ""] },
            { status := 204, headers := corsHeaders, body := "" }) := by
  have hsplit := splitChar_no_sep '?' req.url.data hq
  have hraw : extractNameRaw req.url = "" := by simp [extractNameRaw, hsplit]
  have hdec : decodeURIComponent "" = some "" := by decide
  refine ⟨hraw, hdec, ?_⟩
  have hm2 : (req.method == "OPTIONS") = false := beq_eq_false_iff_ne.mpr hm
  have htf := toggleFirst_eq_none "" st.instances hnone
  simp [serverHandler, hm2, handleRequest, ht, hraw, hdec, htf]

/-- Witness for C10: a GET request to the bare path /toggle against the
Kitchen and Garage controllers looks up the empty name, matches nothing,
logs the error and returns 204. -/
theorem toggle_no_query_witness :
    extractNameRaw "/toggle" = "" ∧
    decodeURIComponent "" = some "" ∧
    serverHandler stKG { method := "GET", url := "/toggle" } =
      some ({ stKG with
              events := stKG.events ++ [Event.error "Could not find instance for name:" ""] },
            { status := 204, headers := corsHeaders, body := "" }) :=
  toggle_no_query stKG { method := "GET", url := "/toggle" }
    (by decide) (by decide) (by decide) (by decide)

end VirtualButton

namespace VirtualButton

/-- C7 (amended): every non-preflight request that gets a response at all
gets 204 with an empty body, and every non-preflight request whose URL does
not contain /toggle always gets such a response.  (A toggle request whose
raw name parameter fails percent-decoding makes the async handler throw
before writing any response, so it is answered with nothing at all; see the
counterexample.) -/
theorem non_preflight_responses (st : PlatformState) (req : HttpRequest)
    (hm : req.method ≠ "OPTIONS") :
    (∀ st2 resp, serverHandler st req = some (st2, resp) →
      resp.status = 204 ∧ resp.body = "") ∧
    (containsSub "/toggle".data req.url.data = false →
      (serverHandler st req).isSome = true) := by
  have hm2 : (req.method == "OPTIONS") = false := beq_eq_false_iff_ne.mpr hm
  constructor
  · intro st2 resp hres
    simp only [serverHandler, hm2, Bool.false_eq_true, if_false] at hres
    rw [handleRequest] at hres
    split at hres
    · split at hres
      · exact absurd hres (by simp)
      · split at hres
        · obtain ⟨h1, h2⟩ := Prod.mk.injEq .. ▸ Option.some.inj hres
          rw [← h2]
          exact ⟨rfl, rfl⟩
        · obtain ⟨h1, h2⟩ := Prod.mk.injEq .. ▸ Option.some.inj hres
          rw [← h2]
          exact ⟨rfl, rfl⟩
    · obtain ⟨h1, h2⟩ := Prod.mk.injEq .. ▸ Option.some.inj hres
      rw [← h2]
      exact ⟨rfl, rfl⟩
  · intro hf
    simp [serverHandler, hm2, handleRequest, hf]

/-- Counterexample for C7 as stated: the non-preflight GET request to
/toggle?name=% is handled by the endpoint, but decodeURIComponent throws a
URIError on the malformed escape, the async handler rejects, and no
response at all is written, rather than the claimed 204. -/
theorem non_preflight_responses_counterexample :
    ("GET" : String) ≠ "OPTIONS" ∧
    serverHandler initialState { method := "GET", url := "/toggle?name=%" } = none := by
  exact ⟨by decide, by decide⟩

/-- Witness for C7 (amended): a GET request to an unrelated path gets a
response, and that response is 204 with an empty body. -/
theorem non_preflight_responses_witness :
    ("GET" : String) ≠ "OPTIONS" ∧
    containsSub "/toggle".data ("/hello" : String).data = false ∧
    (serverHandler initialState { method := "GET", url := "/hello" }).isSome = true :=
  ⟨by decide, by decide,
   (non_preflight_responses initialState { method := "GET", url := "/hello" }
     (by decide)).2 (by decide)⟩

/-- C2 (amended): for every non-OPTIONS request whose URL contains /toggle,
the handler takes the part of the URL after the first question mark,
removes the first occurrence of the substring "name=" from it (this is not
a lookup of the query key name; see the counterexample), percent-decodes
the result, and toggles the first controller in live-set order whose
getName() equals that decoded value under case-sensitive equality; every
other controller is unchanged and the set membership is preserved. -/
theorem toggle_routes_first_match (st : PlatformState) (req : HttpRequest)
    (name : String) (k : Nat) (i : PlatformSwitchAccessory)
    (hm : req.method ≠ "OPTIONS")
    (ht : containsSub "/toggle".data req.url.data = true)
    (hd : decodeURIComponent (extractNameRaw req.url) = some name)
    (hk : st.instances[k]? = some i)
    (hn : getName i = name)
    (hfirst : ∀ j, j < k → ∀ ij, st.instances[j]? = some ij → getName ij ≠ name) :
    ∃ evs,
      serverHandler st req =
        some ({ st with
                instances := st.instances.set k { i with statesOn := !i.statesOn },
                events := st.events ++ evs },
              { status := 204, headers := corsHeaders, body := "" }) ∧
      (st.instances.set k { i with statesOn := !i.statesOn })[k]?
        = some { i with statesOn := !i.statesOn } ∧
      (∀ j, k ≠ j → (st.instances.set k { i with statesOn := !i.statesOn })[j]?
        = st.instances[j]?) ∧
      (st.instances.set k { i with statesOn := !i.statesOn }).map getName
        = st.instances.map getName := by
  obtain ⟨evs, he⟩ := toggleFirst_at name st.instances k i hk hn hfirst
  have hm2 : (req.method == "OPTIONS") = false := beq_eq_false_iff_ne.mpr hm
  refine ⟨evs, ?_, ?_, ?_, ?_⟩
  · simp [serverHandler, hm2, handleRequest, ht, hd, he]
  · exact List.getElem?_set_eq_of_lt _ (List.getElem?_eq_some.mp hk).1
  · intro j hj
    exact List.getElem?_set_ne hj
  · exact toggleFirst_map_getName name st.instances _ evs he

/-- Counterexample for C2 as stated: with controllers Kitchen and Garage, a
GET request to /toggle?a=1&name=Kitchen carries name=Kitchen as the value
of the query key name, yet no controller is toggled: the handler computes
the looked-up name by deleting the first "name=" substring from the whole
query, yielding "a=1&Kitchen", which matches nothing, so an error is logged
and both controllers keep state false. -/
theorem toggle_routes_first_match_counterexample :
    (serverHandler stKG { method := "GET", url := "/toggle?a=1&name=Kitchen" }).map
      (fun r => r.1.instances.map (fun inst => inst.statesOn)) = some [false, false] ∧
    (serverHandler stKG { method := "GET", url := "/toggle?a=1&name=Kitchen" }).map
      (fun r => r.1.events)
      = some [Event.error "Could not find instance for name:" "a=1&Kitchen"] ∧
    stKG.instances.map getName = ["Kitchen", "Garage"] := by
  exact ⟨by decide, by decide, by decide⟩

/-- Witness for C2 (amended): a GET request to /toggle?name=Kitchen toggles
exactly the Kitchen controller; Garage is unaffected. -/
theorem toggle_routes_first_match_witness :
    (∃ evs,
      serverHandler stKG { method := "GET", url := "/toggle?name=Kitchen" } =
        some ({ stKG with
                instances := stKG.instances.set 0
                  { mkInstance kitchenAccessory with
                    statesOn := !(mkInstance kitchenAccessory).statesOn },
                events := stKG.events ++ evs },
              { status := 204, headers := corsHeaders, body := "" }) ∧
      (stKG.instances.set 0
          { mkInstance kitchenAccessory with
            statesOn := !(mkInstance kitchenAccessory).statesOn })[0]?
        = some { mkInstance kitchenAccessory with
                 statesOn := !(mkInstance kitchenAccessory).statesOn } ∧
      (∀ j, 0 ≠ j → (stKG.instances.set 0
          { mkInstance kitchenAccessory with
            statesOn := !(mkInstance kitchenAccessory).statesOn })[j]?
        = stKG.instances[j]?) ∧
      (stKG.instances.set 0
          { mkInstance kitchenAccessory with
            statesOn := !(mkInstance kitchenAccessory).statesOn }).map getName
        = stKG.instances.map getName) ∧
    (serverHandler stKG { method := "GET", url := "/toggle?name=Kitchen" }).map
      (fun r => r.1.instances.map (fun inst => inst.statesOn)) = some [true, false] :=
  ⟨toggle_routes_first_match stKG { method := "GET", url := "/toggle?name=Kitchen" }
     "Kitchen" 0 (mkInstance kitchenAccessory)
     (by decide) (by decide) (by decide) (by decide) (by decide)
     (fun j hj ij hij => absurd hj (Nat.not_lt_zero j)),
   by decide⟩

end VirtualButton

namespace VirtualButton

/-! ## Reconciliation lemmas -/

/-- One discoverDevices iteration never touches the accessory cache
(configureAccessory is the only writer of this.accessories). -/
theorem discoverStep_accessories (st : PlatformState) (b : SwitchConfig) :
    (discoverStep st b).accessories = st.accessories := by
  rw [discoverStep]
  split <;> rfl

/-- The whole discoverDevices loop never touches the accessory cache. -/
theorem foldl_discoverStep_accessories :
    ∀ (sw : List SwitchConfig) (st : PlatformState),
      (List.foldl discoverStep st sw).accessories = st.accessories := by
  intro sw
  induction sw with
  | nil => intro st; rfl
  | cons b sw ih =>
    intro st
    rw [List.foldl_cons, ih, discoverStep_accessories]

/-- One discoverDevices iteration appends exactly one controller, the one
determined by the (unchanged) accessory cache. -/
theorem discoverStep_instances (st : PlatformState) (b : SwitchConfig) :
    (discoverStep st b).instances = st.instances ++ [discoveredInstance st.accessories b] := by
  cases h : st.accessories.find? (fun a => a.UUID == uuidGenerate b.name) with
  | some a => simp [discoverStep, discoveredInstance, h]
  | none => simp [discoverStep, discoveredInstance, h]

/-- The discoverDevices loop appends one controller per configured switch,
in declaration order, each determined by the initial accessory cache. -/
theorem foldl_discoverStep_instances :
    ∀ (sw : List SwitchConfig) (st : PlatformState),
      (List.foldl discoverStep st sw).instances
        = st.instances ++ sw.map (discoveredInstance st.accessories) := by
  intro sw
  induction sw with
  | nil => intro st; simp
  | cons b sw ih =>
    intro st
    rw [List.foldl_cons, ih, discoverStep_instances, discoverStep_accessories]
    simp

/-- When every configured switch already has a cached accessory with its
UUID, the loop registers nothing new. -/
theorem foldl_discoverStep_registered_cached :
    ∀ (sw : List SwitchConfig) (st : PlatformState),
      (∀ b ∈ sw, (st.accessories.find? (fun a => a.UUID == uuidGenerate b.name)).isSome = true) →
      (List.foldl discoverStep st sw).registered = st.registered := by
  intro sw
  induction sw with
  | nil => intro st _; rfl
  | cons b sw ih =>
    intro st h
    obtain ⟨a, ha⟩ := Option.isSome_iff_exists.mp (h b (List.mem_cons_self b sw))
    rw [List.foldl_cons]
    rw [ih (discoverStep st b) (by
      intro b2 hb2
      rw [discoverStep_accessories]
      exact h b2 (List.mem_cons_of_mem b hb2))]
    simp [discoverStep, ha]

/-- C1 (amended): running discoverDevices a second time with the same
configuration and a cache that already holds an accessory for every
configured name creates no new AccessoryRecord (the cache and the set of
registered accessories are exactly as before), but it appends a second
SwitchController for every configured switch: the live set then holds the
per-switch controllers twice, not once. -/
theorem reconcile_twice (sw : List SwitchConfig) (st : PlatformState)
    (h : ∀ b ∈ sw, (st.accessories.find? (fun a => a.UUID == uuidGenerate b.name)).isSome = true) :
    (discoverDevices (some sw) (discoverDevices (some sw) st)).accessories = st.accessories ∧
    (discoverDevices (some sw) (discoverDevices (some sw) st)).registered = st.registered ∧
    (discoverDevices (some sw) (discoverDevices (some sw) st)).instances
      = st.instances ++ sw.map (discoveredInstance st.accessories)
          ++ sw.map (discoveredInstance st.accessories) := by
  have hacc1 := foldl_discoverStep_accessories sw st
  have h2 : ∀ b ∈ sw,
      ((List.foldl discoverStep st sw).accessories.find?
        (fun a => a.UUID == uuidGenerate b.name)).isSome = true := by
    intro b hb
    rw [hacc1]
    exact h b hb
  refine ⟨?_, ?_, ?_⟩
  · show (List.foldl discoverStep (List.foldl discoverStep st sw) sw).accessories = st.accessories
    rw [foldl_discoverStep_accessories, foldl_discoverStep_accessories]
  · show (List.foldl discoverStep (List.foldl discoverStep st sw) sw).registered = st.registered
    rw [foldl_discoverStep_registered_cached sw _ h2,
        foldl_discoverStep_registered_cached sw st h]
  · show (List.foldl discoverStep (List.foldl discoverStep st sw) sw).instances
      = st.instances ++ sw.map (discoveredInstance st.accessories)
          ++ sw.map (discoveredInstance st.accessories)
    rw [foldl_discoverStep_instances, hacc1, foldl_discoverStep_instances]

/-- The platform state used for the C1 counterexample and witness: one
switch named A, whose accessory record is already in the restored cache. -/
def stA : PlatformState :=
  { accessories := [{ displayName := "A", UUID := uuidGenerate "A", contextSwitch := ⟨"A"⟩ }],
    instances := [], registered := [], events := [] }

/-- Counterexample for C1 as stated: with switch A configured and its
accessory already cached, running discoverDevices twice leaves two
controllers named A in the live set, not exactly one. -/
theorem reconcile_twice_counterexample :
    ((discoverDevices (some [⟨"A"⟩]) (discoverDevices (some [⟨"A"⟩]) stA)).instances.map getName)
      = ["A", "A"] ∧
    ((discoverDevices (some [⟨"A"⟩]) (discoverDevices (some [⟨"A"⟩]) stA)).instances.map
        getName).count "A" ≠ 1 := by
  exact ⟨by decide, by decide⟩

/-- Witness for C1 (amended), at the concrete one-switch configuration with
a populated cache. -/
theorem reconcile_twice_witness :
    (∀ b ∈ [(⟨"A"⟩ : SwitchConfig)],
      (stA.accessories.find? (fun a => a.UUID == uuidGenerate b.name)).isSome = true) ∧
    ((discoverDevices (some [⟨"A"⟩]) (discoverDevices (some [⟨"A"⟩]) stA)).accessories
        = stA.accessories ∧
      (discoverDevices (some [⟨"A"⟩]) (discoverDevices (some [⟨"A"⟩]) stA)).registered
        = stA.registered ∧
      (discoverDevices (some [⟨"A"⟩]) (discoverDevices (some [⟨"A"⟩]) stA)).instances
        = stA.instances ++ [(⟨"A"⟩ : SwitchConfig)].map (discoveredInstance stA.accessories)
            ++ [(⟨"A"⟩ : SwitchConfig)].map (discoveredInstance stA.accessories)) :=
  ⟨by decide, reconcile_twice [⟨"A"⟩] stA (by decide)⟩

end VirtualButton

namespace VirtualButton

/-! ## Lifecycle lemmas -/

/-- Handling any single HTTP request preserves the membership of the live
controller set: the list of controller names is unchanged (only a matched
controller's internal state may change). -/
theorem serverHandler_map_getName (st : PlatformState) (req : HttpRequest)
    (st2 : PlatformState) (resp : HttpResponse)
    (h : serverHandler st req = some (st2, resp)) :
    st2.instances.map getName = st.instances.map getName := by
  rw [serverHandler] at h
  split at h
  · obtain ⟨h1, h2⟩ := Prod.mk.injEq .. ▸ Option.some.inj h
    rw [h1]
  · rw [handleRequest] at h
    split at h
    · split at h
      · exact absurd h (by simp)
      · split at h
        · next instances2 evs heq =>
          obtain ⟨h1, h2⟩ := Prod.mk.injEq .. ▸ Option.some.inj h
          rw [← h1]
          exact toggleFirst_map_getName _ st.instances instances2 evs heq
        · obtain ⟨h1, h2⟩ := Prod.mk.injEq .. ▸ Option.some.inj h
          rw [← h1]
    · obtain ⟨h1, h2⟩ := Prod.mk.injEq .. ▸ Option.some.inj h
      rw [h1]

/-- The request lifecycle step preserves the live set's membership, whether
or not a response is written. -/
theorem platformStep_request_map_getName (st : PlatformState) (req : HttpRequest) :
    ((platformStep st (.request req)).instances).map getName
      = st.instances.map getName := by
  simp only [platformStep]
  cases h : serverHandler st req with
  | none => rfl
  | some p =>
    obtain ⟨st2, resp⟩ := p
    exact serverHandler_map_getName st req st2 resp h

/-- As long as the didFinishLaunching signal has not fired, the live
controller set stays empty through any sequence of lifecycle events. -/
theorem foldl_no_launch :
    ∀ (es : List PlatformEvent) (st : PlatformState),
      es.all (fun e => !isDidFinishLaunching e) = true → st.instances = [] →
      (List.foldl platformStep st es).instances = [] := by
  intro es
  induction es with
  | nil => intro st _ h0; exact h0
  | cons e es ih =>
    intro st hall h0
    rw [List.all_cons, Bool.and_eq_true] at hall
    rw [List.foldl_cons]
    cases e with
    | configure accessory =>
      exact ih _ hall.2 (by simp [platformStep, h0])
    | didFinishLaunching config =>
      simp [isDidFinishLaunching] at hall
    | request req =>
      apply ih _ hall.2
      have hmap := platformStep_request_map_getName st req
      rw [h0] at hmap
      simpa using hmap

/-- C9: The live controller set (this.instances) is empty from process
start until a didFinishLaunching signal runs the reconciliation pass, and
its membership changes only by appends performed during that pass:
configureAccessory leaves it exactly as is, request handling preserves its
membership (the name list, hence its length and order), and reconciliation
only ever appends. -/
theorem live_set_mutation :
    (∀ es : List PlatformEvent,
      es.all (fun e => !isDidFinishLaunching e) = true →
      (runPlatform es).instances = []) ∧
    (∀ (st : PlatformState) (accessory : AccessoryRecord),
      (platformStep st (.configure accessory)).instances = st.instances) ∧
    (∀ (st : PlatformState) (req : HttpRequest),
      ((platformStep st (.request req)).instances).map getName
        = st.instances.map getName) ∧
    (∀ (st : PlatformState) (config : Option (List SwitchConfig)), ∃ tail,
      (platformStep st (.didFinishLaunching config)).instances
        = st.instances ++ tail) := by
  refine ⟨?_, ?_, ?_, ?_⟩
  · intro es hall
    exact foldl_no_launch es initialState hall rfl
  · intro st accessory
    rfl
  · exact platformStep_request_map_getName
  · intro st config
    cases config with
    | none => exact ⟨[], by simp [platformStep, discoverDevices]⟩
    | some sw =>
      refine ⟨sw.map (discoveredInstance st.accessories), ?_⟩
      show (discoverDevices (some sw) st).instances = _
      exact foldl_discoverStep_instances sw st

/-- Witness for C9: after restoring a cached accessory and serving a toggle
request, but before any didFinishLaunching signal, the live controller set
is still empty. -/
theorem live_set_mutation_witness :
    ([PlatformEvent.configure kitchenAccessory,
      PlatformEvent.request { method := "GET", url := "/toggle?name=Kitchen" }].all
        (fun e => !isDidFinishLaunching e) = true) ∧
    (runPlatform
      [PlatformEvent.configure kitchenAccessory,
       PlatformEvent.request { method := "GET", url := "/toggle?name=Kitchen" }]).instances
      = [] :=
  ⟨by decide,
   live_set_mutation.1
     [PlatformEvent.configure kitchenAccessory,
      PlatformEvent.request { method := "GET", url := "/toggle?name=Kitchen" }]
     (by decide)⟩

end VirtualButton
